import Mathlib

/-!
Shallow embedding of the image-to-PDF converter app
(repository `ivanglpz/convert-images-to-pdf-app`).

The repository holds two near-duplicate screen implementations:
`src/app/(tabs)/index.tsx` (embedded below in namespace `IndexTab`) and
`src/unnamed/part_000` (namespace `Part000`).  Functions that are textually
identical in both files (paper-size table, page-dimension computation, MIME
inference, attribute escaping, the picker-merge updater) are embedded once at
top level.

JavaScript numbers are modelled as `ℚ` (every numeric literal in the source is
an exact decimal and no computation in the embedded fragments leaves `ℚ`);
`Math.floor` is `Int.floor`, `Math.round` (half-up, toward +infinity) is
Mathlib's `round` (`⌊x + 1/2⌋`).  Strings are Lean `String`s; the JS template
literals are reproduced verbatim (brace characters written with `\x7b`/`\x7d`
escapes), and `value.replace(/c/g, r)` global single-character replacement is
`replaceAllChar` below.
-/

set_option maxRecDepth 40000

namespace ImgPdf

/-- `type PaperSize = "A4" | "Letter" | "Legal"`. -/
inductive PaperSize
  | A4
  | Letter
  | Legal
deriving DecidableEq

/-- `type Orientation = "portrait" | "landscape"`. -/
inductive Orientation
  | portrait
  | landscape
deriving DecidableEq

/-- A `{ widthMm, heightMm }` record. -/
structure PageDims where
  widthMm : ℚ
  heightMm : ℚ
deriving DecidableEq

/-- `PAPER_SIZES`: the fixed paper-size table of both source files. -/
def PAPER_SIZES : PaperSize → PageDims
  | PaperSize.A4 => ⟨210, 297⟩
  | PaperSize.Letter => ⟨215.9, 279.4⟩
  | PaperSize.Legal => ⟨215.9, 355.6⟩

/-- `type SelectedImage = { uri, width, height, mimeType }`. -/
structure SelectedImage where
  uri : String
  width : ℚ
  height : ℚ
  mimeType : Option String
deriving DecidableEq

/-- A raw asset from the image-picker response: `width`, `height` and
`mimeType` may be absent (`asset.width ?? 0`, `asset.mimeType ?? null`). -/
structure RawPickedAsset where
  uri : String
  width : Option ℚ
  height : Option ℚ
  mimeType : Option String
deriving DecidableEq

/-- `const clamp = (value, min, max) => Math.min(max, Math.max(min, value))`. -/
def clamp (value lo hi : ℚ) : ℚ :=
  min hi (max lo value)

/-- The double-quote character `"` (code 34). -/
def quoteChar : Char := Char.ofNat 34

/-- The apostrophe character (code 39). -/
def aposChar : Char := Char.ofNat 39

/-- One `value.replace(/target/g, repl)` pass for a single-character pattern:
every occurrence of `target` is replaced by the string `repl`. -/
def replaceAllChar (l : List Char) (target : Char) (repl : List Char) : List Char :=
  l.flatMap (fun c => if c = target then repl else [c])

/-- `escapeAttribute`: the five chained global replacements
`&`→`&amp;`, `"`→`&quot;`, `'`→`&#39;`, `<`→`&lt;`, `>`→`&gt;`,
applied in this order (identical in both source files). -/
def escapeAttribute (value : String) : String :=
  String.mk
    (replaceAllChar
      (replaceAllChar
        (replaceAllChar
          (replaceAllChar
            (replaceAllChar value.data '&' ("&amp;".data))
            quoteChar ("&quot;".data))
          aposChar ("&#39;".data))
        '<' ("&lt;".data))
      '>' ("&gt;".data))

/-- `getPageDimensionsMm(paperSize, orientation)`: the paper's reference pair
for portrait, the swapped pair for landscape. -/
def getPageDimensionsMm (paperSize : PaperSize) (orientation : Orientation) : PageDims :=
  let base := PAPER_SIZES paperSize
  match orientation with
  | Orientation.portrait => ⟨base.widthMm, base.heightMm⟩
  | Orientation.landscape => ⟨base.heightMm, base.widthMm⟩

/-- Swap the components of a `PageDims` pair (the conceptual landscape swap). -/
def swapDims (d : PageDims) : PageDims :=
  ⟨d.heightMm, d.widthMm⟩

/-- `image.uri.split("?")[0]?.split(".").pop()?.toLowerCase()`:
the lower-cased extension of the path component before any query string.
(`split` on a single character, `[0]` = head, `pop` = last element; both
arrays are never empty, so the defaults are unreachable.) -/
def extensionOf (uri : String) : String :=
  String.mk (((((uri.data.splitOn '?').headD []).splitOn '.').getLastD []).map Char.toLower)

/-- The extension-table fallback of `inferImageMimeType`. -/
def inferMimeFromUri (uri : String) : String :=
  let extension := extensionOf uri
  if extension = "png" then "image/png"
  else if extension = "webp" then "image/webp"
  else if extension = "gif" then "image/gif"
  else if extension = "heic" ∨ extension = "heif" then "image/heic"
  else "image/jpeg"

/-- `inferImageMimeType(image)`: return the declared MIME type unchanged when
it starts with `image/`; otherwise classify by the file-name extension of the
URI (path component before any query string), defaulting to `image/jpeg`. -/
def inferImageMimeType (image : SelectedImage) : String :=
  match image.mimeType with
  | some declared =>
      if ("image/".data.isPrefixOf declared.data) then declared
      else inferMimeFromUri image.uri
  | none => inferMimeFromUri image.uri

/-- Conversion of a raw picker asset to a `SelectedImage`
(`width: asset.width ?? 0`, `height: asset.height ?? 0`,
`mimeType: asset.mimeType ?? null`). -/
def toSelectedImage (asset : RawPickedAsset) : SelectedImage :=
  ⟨asset.uri, asset.width.getD 0, asset.height.getD 0, asset.mimeType⟩

/-- The `setImages` updater inside `pickImages` (identical in both files):
collect the existing URIs, drop every picked asset whose URI is already
present, convert the survivors, and append them at the tail. -/
def mergeNewImages (previous : List SelectedImage) (assets : List RawPickedAsset) :
    List SelectedImage :=
  let existingUris := previous.map (fun item => item.uri)
  let additions :=
    (assets.filter (fun asset => !(existingUris.contains asset.uri))).map toSelectedImage
  previous ++ additions

/-- `maxMarginMm` (called `maxPaddingMm` in `part_000`):
`Math.floor(Math.max(0, Math.min(widthMm, heightMm) / 2 - 1))`. -/
def maxMarginMm (widthMm heightMm : ℚ) : ℤ :=
  ⌊max 0 (min widthMm heightMm / 2 - 1)⌋

/-- The spec's formula for the margin cap, for comparison with the code's
`maxMarginMm`: `floor(min(widthMm, heightMm)/2 - 1)`, floored at 0. -/
def specMaxMarginMm (widthMm heightMm : ℚ) : ℤ :=
  max 0 ⌊min widthMm heightMm / 2 - 1⌋

/-- `mmToPrintPoints(mm) = Math.round((mm / 25.4) * 72)` (`part_000` only). -/
def mmToPrintPoints (mm : ℚ) : ℤ :=
  round (mm / 25.4 * 72)

/-- The spec's `millimetresToPoints(mm) = round(mm / 25.4 * 72)`, for
comparison with the code's `mmToPrintPoints`. -/
def millimetresToPoints (mm : ℚ) : ℤ :=
  round (mm / 25.4 * 72)

/-- JS default number-to-string conversion for the values interpolated into
the HTML templates: an integer prints with no decimal point, a one-decimal
value (the Letter/Legal dimensions) prints with one digit after the point. -/
def mmStr (q : ℚ) : String :=
  if q.den = 1 then toString q.num
  else toString ((q * 10).num / 10) ++ "." ++ toString ((q * 10).num % 10)

/-- An observable side effect of the export action. -/
inductive Effect
  | alert (title message : String)
  | setBusy (flag : Bool)
  | readFile (uri : String)
  | printHtml (html : String)
deriving DecidableEq

/-- `data:${mimeType};base64,${base64}` for one image, with the base64 payload
supplied by the external file-read collaborator `base64Of`. -/
def dataUriOf (base64Of : String → String) (image : SelectedImage) : String :=
  "data:" ++ inferImageMimeType image ++ ";base64," ++ base64Of image.uri

namespace IndexTab

/-- One page unit of `buildPdfHtml` in `index.tsx`:
`<section class="sheet"><img src="..." alt="Imagen n" /></section>`. -/
def pageSection (source : String) (index : Nat) : String :=
  "\n          <section class=\"sheet\">\n            <img src=\"" ++
    escapeAttribute source ++ "\" alt=\"Imagen " ++ toString (index + 1) ++
    "\" />\n          </section>\n        "

/-- `buildPdfHtml` of `index.tsx`: the template literal reproduced verbatim.
The `@page` directive uses the page dimensions with `margin: 0`; each `.sheet`
is page-sized with `padding: ${marginMm}mm` (border-box) and flex centering;
the image is `object-fit: contain`. -/
def buildPdfHtml (widthMm heightMm marginMm : ℚ) (imageSources : List String) : String :=
  let pages :=
    String.join ((imageSources.enum).map (fun indexed => pageSection indexed.2 indexed.1))
  "\n      <!doctype html>\n      <html lang=\"es\">\n        <head>\n          <meta charset=\"utf-8\" />\n          <meta name=\"viewport\" content=\"width=device-width, initial-scale=1\" />\n          <style>\n            " ++
    "@page \x7b\n              size: " ++ mmStr widthMm ++ "mm " ++ mmStr heightMm ++
    "mm;\n              margin: 0;\n            \x7d\n\n            html, body \x7b\n              margin: 0;\n              padding: 0;\n              background: #ffffff;\n            \x7d\n\n            " ++
    ".sheet \x7b\n              box-sizing: border-box;\n              width: " ++
    mmStr widthMm ++ "mm;\n              height: " ++ mmStr heightMm ++
    "mm;\n              padding: " ++ mmStr marginMm ++
    "mm;\n              display: flex;\n              align-items: center;\n              justify-content: center;\n              page-break-after: always;\n              break-after: page;\n            \x7d\n\n            .sheet:last-child \x7b\n              page-break-after: auto;\n              break-after: auto;\n            \x7d\n\n            " ++
    ".sheet img \x7b\n              width: 100%;\n              height: 100%;\n              object-fit: contain;\n              display: block;\n            \x7d\n          </style>\n        </head>\n        <body>\n          " ++
    pages ++ "\n        </body>\n      </html>\n    "

/-- `previewAspectRatio` of `index.tsx`: the ratio of the margin-reduced
content box, `max(widthMm - marginMm*2, 1) / max(heightMm - marginMm*2, 1)`. -/
def previewAspectRatioOf (widthMm heightMm marginMm : ℚ) : ℚ :=
  let contentWidth := max (widthMm - marginMm * 2) 1
  let contentHeight := max (heightMm - marginMm * 2) 1
  contentWidth / contentHeight

/-- The component state of `index.tsx` that `convertToPdf` reads and writes. -/
structure AppState where
  images : List SelectedImage
  paperSize : PaperSize
  orientation : Orientation
  marginMm : ℚ
  isConverting : Bool
  pdfUri : Option String
deriving DecidableEq

/-- `convertToPdf` of `index.tsx`, as a state-plus-effect-trace step.
The empty guard is the code's `if (!images.length) { Alert.alert(...); return; }`.
The non-empty branch is modelled on its success path: the external
collaborators are the oracles `base64Of` (file reads) and `printedFileUri`
(the file handle produced by `Print.printToFileAsync`). -/
def convertToPdf (state : AppState) (base64Of : String → String)
    (printedFileUri : String) : AppState × List Effect :=
  if state.images.isEmpty then
    (state, [Effect.alert ("Sin imágenes") ("Selecciona al menos una imagen para convertir.")])
  else
    let dims := getPageDimensionsMm state.paperSize state.orientation
    let imageSources := state.images.map (dataUriOf base64Of)
    let html := buildPdfHtml dims.widthMm dims.heightMm state.marginMm imageSources
    ({ state with isConverting := false, pdfUri := some printedFileUri },
      Effect.setBusy true ::
        (state.images.map (fun image => Effect.readFile image.uri) ++
          [Effect.printHtml html,
           Effect.alert ("PDF creado") ("Se generó correctamente el PDF."),
           Effect.setBusy false]))

end IndexTab

namespace Part000

/-- The class-name string of an orientation. -/
def orientationStr : Orientation → String
  | Orientation.portrait => "portrait"
  | Orientation.landscape => "landscape"

/-- One page unit of `buildPdfHtml` in `part_000`:
`<section class="sheet ${orientation}"><div class="content"><img ... /></div></section>`. -/
def pageSection (orientation : Orientation) (source : String) (index : Nat) : String :=
  "\n          <section class=\"sheet " ++ orientationStr orientation ++
    "\">\n            <div class=\"content\">\n              <img src=\"" ++
    escapeAttribute source ++ "\" alt=\"Imagen " ++ toString (index + 1) ++
    "\" />\n            </div>\n          </section>\n        "

/-- `buildPdfHtml` of `part_000`: the template literal reproduced verbatim.
The inner `.content` region is explicitly sized to
`max(widthMm - paddingMm*2, 1)` × `max(heightMm - paddingMm*2, 1)`. -/
def buildPdfHtml (widthMm heightMm paddingMm : ℚ) (orientation : Orientation)
    (imageSources : List String) : String :=
  let contentWidthMm := max (widthMm - paddingMm * 2) 1
  let contentHeightMm := max (heightMm - paddingMm * 2) 1
  let pages :=
    String.join
      ((imageSources.enum).map (fun indexed => pageSection orientation indexed.2 indexed.1))
  "\n      <!doctype html>\n      <html lang=\"es\">\n        <head>\n          <meta charset=\"utf-8\" />\n          <meta name=\"viewport\" content=\"width=device-width, initial-scale=1\" />\n          <style>\n            " ++
    "@page \x7b\n              size: " ++ mmStr widthMm ++ "mm " ++ mmStr heightMm ++
    "mm;\n              margin: 0;\n            \x7d\n\n            html, body \x7b\n              margin: 0;\n              padding: 0;\n              background: #ffffff;\n            \x7d\n\n            " ++
    ".sheet \x7b\n              width: " ++ mmStr widthMm ++ "mm;\n              height: " ++
    mmStr heightMm ++
    "mm;\n              display: flex;\n              align-items: center;\n              justify-content: center;\n              page-break-after: always;\n              break-after: page;\n              overflow: hidden;\n            \x7d\n\n            .sheet:last-child \x7b\n              page-break-after: auto;\n              break-after: auto;\n            \x7d\n\n            " ++
    ".content \x7b\n              width: " ++ mmStr contentWidthMm ++
    "mm;\n              height: " ++ mmStr contentHeightMm ++
    "mm;\n              display: flex;\n              align-items: center;\n              justify-content: center;\n            \x7d\n\n            " ++
    ".content img \x7b\n              max-width: 100%;\n              max-height: 100%;\n              width: auto;\n              height: auto;\n              display: block;\n            \x7d\n\n            .sheet.landscape .content img \x7b\n              max-width: " ++
    mmStr contentHeightMm ++ "mm;\n              max-height: " ++ mmStr contentWidthMm ++
    "mm;\n              transform: rotate(90deg);\n              transform-origin: center center;\n            \x7d\n          </style>\n        </head>\n        <body>\n          " ++
    pages ++ "\n        </body>\n      </html>\n    "

/-- `previewAspectRatio` of `part_000`: `widthMm / heightMm`. -/
def previewAspectRatioOf (widthMm heightMm : ℚ) : ℚ :=
  widthMm / heightMm

/-- The component state of `part_000` that `generatePdf` reads and writes. -/
structure AppState where
  images : List SelectedImage
  paperSize : PaperSize
  orientation : Orientation
  paddingMm : ℚ
  isGenerating : Bool
deriving DecidableEq

/-- `generatePdf` of `part_000`, as a state-plus-effect-trace step.
The empty guard is the code's `if (!images.length) { Alert.alert(...); return; }`;
the non-empty branch is modelled on its success path (the document is handed
to `Print.printAsync`, which produces no persisted artifact). -/
def generatePdf (state : AppState) (base64Of : String → String) :
    AppState × List Effect :=
  if state.images.isEmpty then
    (state, [Effect.alert ("Sin imágenes") ("Selecciona al menos una imagen para convertir.")])
  else
    let dims := getPageDimensionsMm state.paperSize state.orientation
    let imageSources := state.images.map (dataUriOf base64Of)
    let html :=
      buildPdfHtml dims.widthMm dims.heightMm state.paddingMm state.orientation imageSources
    ({ state with isGenerating := false },
      Effect.setBusy true ::
        (state.images.map (fun image => Effect.readFile image.uri) ++
          [Effect.printHtml html, Effect.setBusy false]))

end Part000

/-- `needle` occurs as a contiguous substring of `hay`. -/
def occursIn (needle hay : String) : Prop :=
  needle.data <:+: hay.data

instance (needle hay : String) : Decidable (occursIn needle hay) :=
  inferInstanceAs (Decidable (needle.data <:+: hay.data))

/-- `b` is an initial run of `t`. -/
def strIsStart (b t : String) : Prop :=
  b.data <+: t.data

instance (b t : String) : Decidable (strIsStart b t) :=
  inferInstanceAs (Decidable (b.data <+: t.data))

/-! ### Helper lemmas about strings and substring occurrence -/

theorem strData_append (a b : String) : (a ++ b).data = a.data ++ b.data := by
  cases a
  cases b
  rfl

theorem strExt {a b : String} (h : a.data = b.data) : a = b := by
  cases a
  cases b
  exact congrArg String.mk h

theorem strAppend_assoc (a b c : String) : a ++ b ++ c = a ++ (b ++ c) := by
  apply strExt
  simp [strData_append]

theorem occursIn_refl (s : String) : occursIn s s :=
  ⟨[], [], by simp⟩

theorem occursIn_append_left {needle a : String} (b : String) (h : occursIn needle a) :
    occursIn needle (a ++ b) := by
  unfold occursIn at h ⊢
  rw [strData_append]
  exact h.trans ⟨[], b.data, by simp⟩

theorem occursIn_append_right {needle b : String} (a : String) (h : occursIn needle b) :
    occursIn needle (a ++ b) := by
  unfold occursIn at h ⊢
  rw [strData_append]
  exact h.trans ⟨a.data, [], by simp⟩

theorem occursIn_of_start {needle hay : String} (h : strIsStart needle hay) :
    occursIn needle hay := by
  obtain ⟨r, hr⟩ := h
  exact ⟨[], r, by simp [hr]⟩

theorem strStart_step (c : String) {b s t : String} (hb : b = s ++ c)
    (hc : strIsStart c t) : strIsStart b (s ++ t) := by
  obtain ⟨r, hr⟩ := hc
  unfold strIsStart
  rw [hb, strData_append, strData_append]
  exact ⟨r, by rw [List.append_assoc, hr]⟩

theorem strStart_extend {b s : String} (t : String) (h : strIsStart b s) :
    strIsStart b (s ++ t) := by
  obtain ⟨r, hr⟩ := h
  unfold strIsStart
  rw [strData_append]
  exact ⟨r ++ t.data, by rw [← List.append_assoc, hr]⟩

/-! ### Claim C2 -/

/-- Claim C2: for every `PaperSize p`, `getPageDimensionsMm p portrait` is the
paper's reference pair unchanged, `getPageDimensionsMm p landscape` is that
pair with width and height swapped, and swapping the landscape result again
yields the portrait result. -/
theorem c2_pageDimensions_orientation_swap (p : PaperSize) :
    getPageDimensionsMm p Orientation.portrait = PAPER_SIZES p ∧
    getPageDimensionsMm p Orientation.landscape =
      swapDims (getPageDimensionsMm p Orientation.portrait) ∧
    swapDims (getPageDimensionsMm p Orientation.landscape) =
      getPageDimensionsMm p Orientation.portrait := by
  cases p <;> exact ⟨rfl, rfl, rfl⟩

/-! ### Claim C5 -/

/-- Claim C5: `maxMarginMm` equals the spec formula
`floor(min(widthMm, heightMm)/2 - 1)` floored at 0, it is monotone
(non-increasing as the paper dimensions shrink), and for A4 portrait
(210×297) it equals 104. -/
theorem c5_maxMarginMm_formula :
    (∀ widthMm heightMm : ℚ, 0 < widthMm → 0 < heightMm →
        maxMarginMm widthMm heightMm = specMaxMarginMm widthMm heightMm) ∧
    (∀ w w' h h' : ℚ, w ≤ w' → h ≤ h' → maxMarginMm w h ≤ maxMarginMm w' h') ∧
    maxMarginMm 210 297 = 104 := by
  refine ⟨?_, ?_, ?_⟩
  · intro w h _ _
    unfold maxMarginMm specMaxMarginMm
    rcases le_total (min w h / 2 - 1) 0 with hx | hx
    · rw [max_eq_left hx, Int.floor_zero, max_eq_left (Int.floor_nonpos hx)]
    · rw [max_eq_right hx, max_eq_right (Int.floor_nonneg.mpr hx)]
  · intro w w' h h' hw hh
    unfold maxMarginMm
    apply Int.floor_le_floor
    apply max_le_max le_rfl
    have hmin : min w h ≤ min w' h' := min_le_min hw hh
    have hdiv := div_le_div_of_nonneg_right hmin (by norm_num : (0 : ℚ) ≤ 2)
    linarith
  · unfold maxMarginMm
    rw [min_eq_left (by norm_num : (210 : ℚ) ≤ 297)]
    rw [show (210 : ℚ) / 2 - 1 = 104 by norm_num]
    rw [max_eq_right (by norm_num : (0 : ℚ) ≤ 104)]
    rw [show (104 : ℚ) = ((104 : ℤ) : ℚ) by norm_num, Int.floor_intCast]

theorem c5_maxMarginMm_formula_witness :
    maxMarginMm 210 297 = specMaxMarginMm 210 297 ∧
    maxMarginMm 209 296 ≤ maxMarginMm 210 297 :=
  ⟨c5_maxMarginMm_formula.1 210 297 (by norm_num) (by norm_num),
   c5_maxMarginMm_formula.2.1 209 210 296 297 (by norm_num) (by norm_num)⟩

/-! ### Claim C6 -/

/-- Claim C6: `mmToPrintPoints` is the spec's `round(mm / 25.4 * 72)` for
every input, and in particular maps 25.4 to 72 and 10 to 28. -/
theorem c6_mmToPrintPoints_round :
    (∀ mm : ℚ, mmToPrintPoints mm = millimetresToPoints mm) ∧
    mmToPrintPoints 25.4 = 72 ∧ mmToPrintPoints 10 = 28 := by
  refine ⟨fun mm => rfl, ?_, ?_⟩
  · unfold mmToPrintPoints
    rw [show (25.4 : ℚ) / 25.4 * 72 = ((72 : ℤ) : ℚ) by norm_num, round_intCast]
  · unfold mmToPrintPoints
    rw [round_eq]
    norm_num

/-! ### Claim C3 -/

/-- Claim C3 counterexample: for the handle `"img?x=1.webp"` with no declared
type the code takes the extension from the path component before the query
string (`"img"`, which has no extension), so the result is `image/jpeg`, not
`image/webp` as the claim states. -/
theorem c3_counter_query_string_extension :
    inferImageMimeType ⟨"img?x=1.webp", 0, 0, none⟩ ≠ "image/webp" := by
  decide

/-- Claim C3 as amended: a declared type starting with `image/` is returned
unchanged; with no declared type the lower-cased extension of the path
component before any query string selects the type (so `"photo.PNG"` gives
`image/png`), unknown or missing extensions give `image/jpeg`, and
`"img?x=1.webp"` gives `image/jpeg` (its pre-query path has no extension). -/
theorem c3_inferImageMimeType_amended :
    (∀ image : SelectedImage, ∀ declared : String,
        image.mimeType = some declared →
        "image/".data.isPrefixOf declared.data = true →
        inferImageMimeType image = declared) ∧
    inferImageMimeType ⟨"photo.PNG", 0, 0, none⟩ = "image/png" ∧
    inferImageMimeType ⟨"x", 0, 0, some ("image/heic")⟩ = "image/heic" ∧
    inferImageMimeType ⟨"img?x=1.webp", 0, 0, none⟩ = "image/jpeg" ∧
    inferImageMimeType ⟨"a.webp", 0, 0, none⟩ = "image/webp" ∧
    inferImageMimeType ⟨"b.gif", 0, 0, none⟩ = "image/gif" ∧
    inferImageMimeType ⟨"c.HEIF", 0, 0, none⟩ = "image/heic" ∧
    inferImageMimeType ⟨"d.heic", 0, 0, none⟩ = "image/heic" ∧
    inferImageMimeType ⟨"e.bmp", 0, 0, none⟩ = "image/jpeg" ∧
    inferImageMimeType ⟨"noextension", 0, 0, none⟩ = "image/jpeg" := by
  refine ⟨?_, by decide, by decide, by decide, by decide, by decide, by decide,
    by decide, by decide, by decide⟩
  intro image declared hdecl hpre
  obtain ⟨u, w, hgt, mt⟩ := image
  replace hdecl : mt = some declared := hdecl
  subst hdecl
  simp [inferImageMimeType, hpre]

theorem c3_inferImageMimeType_amended_witness :
    inferImageMimeType ⟨"zz", 0, 0, some ("image/png")⟩ = "image/png" :=
  c3_inferImageMimeType_amended.1 ⟨"zz", 0, 0, some ("image/png")⟩ ("image/png") rfl (by decide)

/-! ### Claim C4 -/

/-- Claim C4 counterexample: the merge does not deduplicate inside the picked
batch itself, so picking the same handle twice in one batch produces a
duplicate `uri` in the result. -/
theorem c4_counter_duplicate_picked_batch :
    ¬ (((mergeNewImages []
            [⟨"u", none, none, none⟩, ⟨"u", none, none, none⟩]).map
          (fun image => image.uri)).Nodup) := by
  decide

/-- Claim C4 as amended: when the existing sequence has pairwise-distinct
handles and the picked batch itself has pairwise-distinct handles, the merge
result has no duplicate handle, keeps the pre-existing elements first in their
original order, and appends the surviving picked assets at the tail in their
relative picked order. -/
theorem c4_mergeNewImages_amended (previous : List SelectedImage)
    (picked : List RawPickedAsset)
    (hprev : (previous.map (fun image => image.uri)).Nodup)
    (hpicked : (picked.map (fun asset => asset.uri)).Nodup) :
    ((mergeNewImages previous picked).map (fun image => image.uri)).Nodup ∧
    (mergeNewImages previous picked).take previous.length = previous ∧
    ∃ survivors : List RawPickedAsset,
      List.Sublist survivors picked ∧
      (mergeNewImages previous picked).drop previous.length =
        survivors.map toSelectedImage := by
  have hmaps : ∀ l : List RawPickedAsset,
      (l.map toSelectedImage).map (fun image => image.uri) =
        l.map (fun asset => asset.uri) := by
    intro l
    rw [List.map_map]
    rfl
  unfold mergeNewImages
  refine ⟨?_, List.take_left previous _,
    ⟨picked.filter
        (fun asset => !((previous.map (fun item => item.uri)).contains asset.uri)),
      List.filter_sublist picked, List.drop_left previous _⟩⟩
  rw [List.map_append, List.nodup_append]
  refine ⟨hprev, ?_, ?_⟩
  · rw [hmaps]
    exact hpicked.sublist ((List.filter_sublist picked).map (fun asset => asset.uri))
  · intro x hx hx'
    rw [hmaps] at hx'
    obtain ⟨a, ha, rfl⟩ := List.mem_map.mp hx'
    have hfilter := (List.mem_filter.mp ha).2
    simp at hfilter
    obtain ⟨b, hb, hb2⟩ := List.mem_map.mp hx
    exact hfilter b hb hb2

theorem c4_mergeNewImages_amended_witness :
    ((mergeNewImages [⟨"a", 0, 0, none⟩] [⟨"a", none, none, none⟩, ⟨"b", none, none, none⟩]).map
        (fun image => image.uri)).Nodup ∧
    (mergeNewImages [⟨"a", 0, 0, none⟩] [⟨"a", none, none, none⟩, ⟨"b", none, none, none⟩]).take 1 =
      [⟨"a", 0, 0, none⟩] ∧
    ∃ survivors : List RawPickedAsset,
      List.Sublist survivors [⟨"a", none, none, none⟩, ⟨"b", none, none, none⟩] ∧
      (mergeNewImages [⟨"a", 0, 0, none⟩]
          [⟨"a", none, none, none⟩, ⟨"b", none, none, none⟩]).drop 1 =
        survivors.map toSelectedImage :=
  c4_mergeNewImages_amended [⟨"a", 0, 0, none⟩]
    [⟨"a", none, none, none⟩, ⟨"b", none, none, none⟩] (by decide) (by decide)

/-! ### Claim C9 -/

/-- Claim C9: the merge is idempotent — merging the same picked batch into the
result of a first merge adds nothing. -/
theorem c9_mergeNewImages_idempotent (previous : List SelectedImage)
    (picked : List RawPickedAsset) :
    mergeNewImages (mergeNewImages previous picked) picked =
      mergeNewImages previous picked := by
  have hnil : picked.filter
      (fun asset =>
        !(((mergeNewImages previous picked).map (fun item => item.uri)).contains asset.uri)) =
      [] := by
    rw [List.filter_eq_nil_iff]
    intro asset hmem
    simp only [Bool.not_eq_true]
    rw [Bool.not_eq_false']
    have hmem2 : asset.uri ∈
        (mergeNewImages previous picked).map (fun item => item.uri) := by
      unfold mergeNewImages
      rw [List.map_append, List.mem_append]
      by_cases hcase : asset.uri ∈ previous.map (fun item => item.uri)
      · exact Or.inl hcase
      · refine Or.inr ?_
        rw [List.map_map]
        refine List.mem_map.mpr ⟨asset, ?_, rfl⟩
        refine List.mem_filter.mpr ⟨hmem, ?_⟩
        simp [hcase]
    exact List.elem_iff.mpr hmem2
  show mergeNewImages previous picked ++
      (picked.filter
        (fun asset =>
          !(((mergeNewImages previous picked).map (fun item => item.uri)).contains
            asset.uri))).map toSelectedImage =
    mergeNewImages previous picked
  rw [hnil]
  simp

/-! ### Claim C8 -/

/-- Claim C8 counterexample: the `index.tsx` variant's `previewAspectRatio` at
A4 portrait with the default 10mm margin is the content-box ratio 190/277, not
the page ratio 210/297 — it is not the claimed margin-independent
`widthMm / heightMm`. -/
theorem c8_counter_margin_dependent :
    IndexTab.previewAspectRatioOf
        (getPageDimensionsMm PaperSize.A4 Orientation.portrait).widthMm
        (getPageDimensionsMm PaperSize.A4 Orientation.portrait).heightMm 10 ≠
      (getPageDimensionsMm PaperSize.A4 Orientation.portrait).widthMm /
        (getPageDimensionsMm PaperSize.A4 Orientation.portrait).heightMm := by
  show IndexTab.previewAspectRatioOf 210 297 10 ≠ (210 : ℚ) / 297
  simp only [IndexTab.previewAspectRatioOf]
  rw [show (210 : ℚ) - 10 * 2 = 190 by norm_num,
    show (297 : ℚ) - 10 * 2 = 277 by norm_num,
    max_eq_left (by norm_num : (1 : ℚ) ≤ 190),
    max_eq_left (by norm_num : (1 : ℚ) ≤ 277)]
  norm_num

/-- Claim C8 as amended: in the `part_000` variant `previewAspectRatio` is
exactly `widthMm / heightMm` of the current page dimensions (margin never
enters); in the `index.tsx` variant it is the content-box ratio, which matches
`widthMm / heightMm` only at margin 0 (at A4 portrait with margin 10 it is
190/277). -/
theorem c8_previewAspectRatio_amended :
    (∀ widthMm heightMm : ℚ,
        Part000.previewAspectRatioOf widthMm heightMm = widthMm / heightMm) ∧
    (∀ p : PaperSize, ∀ o : Orientation,
        Part000.previewAspectRatioOf (getPageDimensionsMm p o).widthMm
            (getPageDimensionsMm p o).heightMm =
          (getPageDimensionsMm p o).widthMm / (getPageDimensionsMm p o).heightMm) ∧
    (∀ widthMm heightMm : ℚ, 1 ≤ widthMm → 1 ≤ heightMm →
        IndexTab.previewAspectRatioOf widthMm heightMm 0 = widthMm / heightMm) ∧
    IndexTab.previewAspectRatioOf 210 297 10 = 190 / 277 := by
  refine ⟨fun w h => rfl, fun p o => rfl, ?_, ?_⟩
  · intro w h hw hh
    simp only [IndexTab.previewAspectRatioOf]
    rw [show w - 0 * 2 = w by ring, show h - 0 * 2 = h by ring,
      max_eq_left hw, max_eq_left hh]
  · simp only [IndexTab.previewAspectRatioOf]
    rw [show (210 : ℚ) - 10 * 2 = 190 by norm_num,
      show (297 : ℚ) - 10 * 2 = 277 by norm_num,
      max_eq_left (by norm_num : (1 : ℚ) ≤ 190),
      max_eq_left (by norm_num : (1 : ℚ) ≤ 277)]

theorem c8_previewAspectRatio_amended_witness :
    IndexTab.previewAspectRatioOf 210 297 0 = 210 / 297 :=
  c8_previewAspectRatio_amended.2.2.1 210 297 (by norm_num) (by norm_num)

/-! ### Claim C10 -/

theorem mem_replaceAllChar {c : Char} {l : List Char} {target : Char}
    {repl : List Char} (h : c ∈ replaceAllChar l target repl) :
    c ∈ repl ∨ (c ∈ l ∧ c ≠ target) := by
  unfold replaceAllChar at h
  obtain ⟨a, ha, hc⟩ := List.mem_flatMap.mp h
  by_cases hat : a = target
  · subst hat
    rw [if_pos rfl] at hc
    exact Or.inl hc
  · rw [if_neg hat] at hc
    simp only [List.mem_singleton] at hc
    subst hc
    exact Or.inr ⟨ha, hat⟩

/-- Claim C10: for every input, `escapeAttribute` produces a string containing
no raw double quote, apostrophe, `<` or `>`; `&` is escaped first, so each
special character maps to exactly its own entity with no double escaping. -/
theorem c10_escapeAttribute_no_raw_specials :
    (∀ value : String, ∀ c ∈ (escapeAttribute value).data,
        c ≠ quoteChar ∧ c ≠ aposChar ∧ c ≠ '<' ∧ c ≠ '>') ∧
    escapeAttribute ("&") = "&amp;" ∧
    escapeAttribute (String.mk [quoteChar]) = "&quot;" ∧
    escapeAttribute (String.mk [aposChar]) = "&#39;" ∧
    escapeAttribute ("<") = "&lt;" ∧
    escapeAttribute (">") = "&gt;" := by
  refine ⟨?_, by decide, by decide, by decide, by decide, by decide⟩
  intro value c hc
  have hsafeAmp : ∀ d ∈ "&amp;".data,
      d ≠ quoteChar ∧ d ≠ aposChar ∧ d ≠ '<' ∧ d ≠ '>' := by decide
  have hsafeQuot : ∀ d ∈ "&quot;".data,
      d ≠ quoteChar ∧ d ≠ aposChar ∧ d ≠ '<' ∧ d ≠ '>' := by decide
  have hsafeApos : ∀ d ∈ "&#39;".data,
      d ≠ quoteChar ∧ d ≠ aposChar ∧ d ≠ '<' ∧ d ≠ '>' := by decide
  have hsafeLt : ∀ d ∈ "&lt;".data,
      d ≠ quoteChar ∧ d ≠ aposChar ∧ d ≠ '<' ∧ d ≠ '>' := by decide
  have hsafeGt : ∀ d ∈ "&gt;".data,
      d ≠ quoteChar ∧ d ≠ aposChar ∧ d ≠ '<' ∧ d ≠ '>' := by decide
  rcases mem_replaceAllChar hc with h | ⟨h4, hgt⟩
  · exact hsafeGt c h
  rcases mem_replaceAllChar h4 with h | ⟨h3, hlt⟩
  · exact hsafeLt c h
  rcases mem_replaceAllChar h3 with h | ⟨h2, hapos⟩
  · exact hsafeApos c h
  rcases mem_replaceAllChar h2 with h | ⟨h1, hquot⟩
  · exact hsafeQuot c h
  rcases mem_replaceAllChar h1 with h | ⟨h0, hamp⟩
  · exact hsafeAmp c h
  exact ⟨hquot, hapos, hlt, hgt⟩

theorem c10_escapeAttribute_no_raw_specials_witness :
    'a' ≠ quoteChar ∧ 'a' ≠ aposChar ∧ 'a' ≠ '<' ∧ 'a' ≠ '>' :=
  c10_escapeAttribute_no_raw_specials.1 ("a<b") 'a' (by decide)

/-! ### Claim C7 -/

/-- Claim C7: with an empty image sequence the export action leaves the state
untouched (including any previously produced artifact handle), emits only the
user-facing alert, never sets the in-progress flag, performs no file read and
builds no markup — in both screen variants. -/
theorem c7_convert_empty_noop (s : IndexTab.AppState) (t : Part000.AppState)
    (readOracle₁ readOracle₂ : String → String) (printedFileUri : String)
    (hs : s.images = []) (ht : t.images = []) :
    (IndexTab.convertToPdf s readOracle₁ printedFileUri).1 = s ∧
    (IndexTab.convertToPdf s readOracle₁ printedFileUri).2 =
      [Effect.alert ("Sin imágenes") ("Selecciona al menos una imagen para convertir.")] ∧
    (∀ flag, Effect.setBusy flag ∉ (IndexTab.convertToPdf s readOracle₁ printedFileUri).2) ∧
    (∀ uri, Effect.readFile uri ∉ (IndexTab.convertToPdf s readOracle₁ printedFileUri).2) ∧
    (∀ html, Effect.printHtml html ∉ (IndexTab.convertToPdf s readOracle₁ printedFileUri).2) ∧
    (Part000.generatePdf t readOracle₂).1 = t ∧
    (Part000.generatePdf t readOracle₂).2 =
      [Effect.alert ("Sin imágenes") ("Selecciona al menos una imagen para convertir.")] := by
  simp [IndexTab.convertToPdf, Part000.generatePdf, hs, ht]

theorem c7_convert_empty_noop_witness :
    (IndexTab.convertToPdf ⟨[], PaperSize.A4, Orientation.portrait, 10, false, none⟩
        id ("out.pdf")).1 =
      ⟨[], PaperSize.A4, Orientation.portrait, 10, false, none⟩ ∧
    (IndexTab.convertToPdf ⟨[], PaperSize.A4, Orientation.portrait, 10, false, none⟩
        id ("out.pdf")).2 =
      [Effect.alert ("Sin imágenes") ("Selecciona al menos una imagen para convertir.")] ∧
    (∀ flag, Effect.setBusy flag ∉
      (IndexTab.convertToPdf ⟨[], PaperSize.A4, Orientation.portrait, 10, false, none⟩
        id ("out.pdf")).2) ∧
    (∀ uri, Effect.readFile uri ∉
      (IndexTab.convertToPdf ⟨[], PaperSize.A4, Orientation.portrait, 10, false, none⟩
        id ("out.pdf")).2) ∧
    (∀ html, Effect.printHtml html ∉
      (IndexTab.convertToPdf ⟨[], PaperSize.A4, Orientation.portrait, 10, false, none⟩
        id ("out.pdf")).2) ∧
    (Part000.generatePdf ⟨[], PaperSize.A4, Orientation.portrait, 10, false⟩ id).1 =
      ⟨[], PaperSize.A4, Orientation.portrait, 10, false⟩ ∧
    (Part000.generatePdf ⟨[], PaperSize.A4, Orientation.portrait, 10, false⟩ id).2 =
      [Effect.alert ("Sin imágenes") ("Selecciona al menos una imagen para convertir.")] :=
  c7_convert_empty_noop _ _ id id ("out.pdf") rfl rfl

/-! ### Claim C1 -/

/-- Claim C1: for paper A4, portrait orientation, margin 10mm and any single
image, the generated markup declares a global `@page` size of exactly
210mm × 297mm with zero page-level margin, a page unit sized 210mm × 297mm,
an inner content region of exactly 190mm × 277mm (210−2·10 by 297−2·10; in
`index.tsx` via border-box `padding: 10mm` on the page-sized sheet, in
`part_000` via an explicitly sized `.content` box), and the image centered
(flex centering) and contained (aspect-ratio-preserving fit) within that
content region. -/
theorem c1_buildPdfHtml_a4_portrait_layout (s : String) :
    getPageDimensionsMm PaperSize.A4 Orientation.portrait = ⟨210, 297⟩ ∧
    occursIn ("@page \x7b\n              size: 210mm 297mm;\n              margin: 0;\n            \x7d")
      (IndexTab.buildPdfHtml 210 297 10 [s]) ∧
    occursIn (".sheet \x7b\n              box-sizing: border-box;\n              width: 210mm;\n              height: 297mm;\n              padding: 10mm;\n              display: flex;\n              align-items: center;\n              justify-content: center;")
      (IndexTab.buildPdfHtml 210 297 10 [s]) ∧
    occursIn (".sheet img \x7b\n              width: 100%;\n              height: 100%;\n              object-fit: contain;")
      (IndexTab.buildPdfHtml 210 297 10 [s]) ∧
    occursIn (IndexTab.pageSection s 0) (IndexTab.buildPdfHtml 210 297 10 [s]) ∧
    IndexTab.pageSection s 0 =
      "\n          <section class=\"sheet\">\n            " ++
        ("<img src=\"" ++ escapeAttribute s ++ "\" alt=\"Imagen 1\" />") ++
        "\n          </section>\n        " ∧
    (210 : ℚ) - 10 * 2 = 190 ∧ (297 : ℚ) - 10 * 2 = 277 ∧
    occursIn ("@page \x7b\n              size: 210mm 297mm;\n              margin: 0;\n            \x7d")
      (Part000.buildPdfHtml 210 297 10 Orientation.portrait [s]) ∧
    occursIn (".sheet \x7b\n              width: 210mm;\n              height: 297mm;")
      (Part000.buildPdfHtml 210 297 10 Orientation.portrait [s]) ∧
    occursIn (".content \x7b\n              width: 190mm;\n              height: 277mm;\n              display: flex;\n              align-items: center;\n              justify-content: center;\n            \x7d")
      (Part000.buildPdfHtml 210 297 10 Orientation.portrait [s]) ∧
    occursIn (".content img \x7b\n              max-width: 100%;\n              max-height: 100%;")
      (Part000.buildPdfHtml 210 297 10 Orientation.portrait [s]) := by
  have e210 : mmStr 210 = "210" := by decide
  have e297 : mmStr 297 = "297" := by decide
  have e10 : mmStr 10 = "10" := by decide
  have e190 : mmStr 190 = "190" := by decide
  have e277 : mmStr 277 = "277" := by decide
  have hcw : max ((210 : ℚ) - 10 * 2) 1 = 190 := by
    rw [show (210 : ℚ) - 10 * 2 = 190 by norm_num]
    exact max_eq_left (by norm_num)
  have hch : max ((297 : ℚ) - 10 * 2) 1 = 277 := by
    rw [show (297 : ℚ) - 10 * 2 = 277 by norm_num]
    exact max_eq_left (by norm_num)
  refine ⟨rfl, ?_, ?_, ?_, ?_, ?_, by norm_num, by norm_num, ?_, ?_, ?_, ?_⟩
  · -- index.tsx: the @page directive
    simp only [IndexTab.buildPdfHtml, e210, e297, e10, strAppend_assoc]
    apply occursIn_append_right
    apply occursIn_of_start
    refine strStart_step ("210mm 297mm;\n              margin: 0;\n            \x7d") (by decide) ?_
    refine strStart_step ("mm 297mm;\n              margin: 0;\n            \x7d") (by decide) ?_
    refine strStart_step ("297mm;\n              margin: 0;\n            \x7d") (by decide) ?_
    refine strStart_step ("mm;\n              margin: 0;\n            \x7d") (by decide) ?_
    exact strStart_extend _ (by decide)
  · -- index.tsx: the page-sized, padded, flex-centering sheet rule
    simp only [IndexTab.buildPdfHtml, e210, e297, e10, strAppend_assoc]
    apply occursIn_append_right
    apply occursIn_append_right
    apply occursIn_append_right
    apply occursIn_append_right
    apply occursIn_append_right
    apply occursIn_append_right
    apply occursIn_of_start
    refine strStart_step ("210mm;\n              height: 297mm;\n              padding: 10mm;\n              display: flex;\n              align-items: center;\n              justify-content: center;") (by decide) ?_
    refine strStart_step ("mm;\n              height: 297mm;\n              padding: 10mm;\n              display: flex;\n              align-items: center;\n              justify-content: center;") (by decide) ?_
    refine strStart_step ("297mm;\n              padding: 10mm;\n              display: flex;\n              align-items: center;\n              justify-content: center;") (by decide) ?_
    refine strStart_step ("mm;\n              padding: 10mm;\n              display: flex;\n              align-items: center;\n              justify-content: center;") (by decide) ?_
    refine strStart_step ("10mm;\n              display: flex;\n              align-items: center;\n              justify-content: center;") (by decide) ?_
    refine strStart_step ("mm;\n              display: flex;\n              align-items: center;\n              justify-content: center;") (by decide) ?_
    exact strStart_extend _ (by decide)
  · -- index.tsx: the contain-fit image rule
    simp only [IndexTab.buildPdfHtml, e210, e297, e10, strAppend_assoc]
    apply occursIn_append_right
    apply occursIn_append_right
    apply occursIn_append_right
    apply occursIn_append_right
    apply occursIn_append_right
    apply occursIn_append_right
    apply occursIn_append_right
    apply occursIn_append_right
    apply occursIn_append_right
    apply occursIn_append_right
    apply occursIn_append_right
    apply occursIn_append_right
    apply occursIn_append_right
    apply occursIn_of_start
    exact strStart_extend _ (by decide)
  · -- index.tsx: the single page section occurs in the document body
    simp only [IndexTab.buildPdfHtml, e210, e297, e10, strAppend_assoc]
    have hj : String.join
        ((([s] : List String).enum).map
          (fun indexed => IndexTab.pageSection indexed.2 indexed.1)) =
        IndexTab.pageSection s 0 := rfl
    apply occursIn_append_right
    apply occursIn_append_right
    apply occursIn_append_right
    apply occursIn_append_right
    apply occursIn_append_right
    apply occursIn_append_right
    apply occursIn_append_right
    apply occursIn_append_right
    apply occursIn_append_right
    apply occursIn_append_right
    apply occursIn_append_right
    apply occursIn_append_right
    apply occursIn_append_right
    apply occursIn_append_right
    rw [hj]
    exact occursIn_append_left _ (occursIn_refl _)
  · -- the page section is exactly the escaped, centered image tag
    unfold IndexTab.pageSection
    rw [show toString (0 + 1) = "1" by decide]
    simp only [strAppend_assoc]
    rw [show ("\n          <section class=\"sheet\">\n            <img src=\"" : String) =
        "\n          <section class=\"sheet\">\n            " ++ "<img src=\"" by decide]
    simp only [strAppend_assoc]
    rw [show ("\" alt=\"Imagen " : String) ++ ("1" ++ "\" />\n          </section>\n        ") =
        "\" alt=\"Imagen 1\" />" ++ "\n          </section>\n        " by decide]
  · -- part_000: the @page directive
    simp only [Part000.buildPdfHtml, hcw, hch, e210, e297, e190, e277, strAppend_assoc]
    apply occursIn_append_right
    apply occursIn_of_start
    refine strStart_step ("210mm 297mm;\n              margin: 0;\n            \x7d") (by decide) ?_
    refine strStart_step ("mm 297mm;\n              margin: 0;\n            \x7d") (by decide) ?_
    refine strStart_step ("297mm;\n              margin: 0;\n            \x7d") (by decide) ?_
    refine strStart_step ("mm;\n              margin: 0;\n            \x7d") (by decide) ?_
    exact strStart_extend _ (by decide)
  · -- part_000: the page-sized sheet rule
    simp only [Part000.buildPdfHtml, hcw, hch, e210, e297, e190, e277, strAppend_assoc]
    apply occursIn_append_right
    apply occursIn_append_right
    apply occursIn_append_right
    apply occursIn_append_right
    apply occursIn_append_right
    apply occursIn_append_right
    apply occursIn_of_start
    refine strStart_step ("210mm;\n              height: 297mm;") (by decide) ?_
    refine strStart_step ("mm;\n              height: 297mm;") (by decide) ?_
    refine strStart_step ("297mm;") (by decide) ?_
    refine strStart_step ("mm;") (by decide) ?_
    exact strStart_extend _ (by decide)
  · -- part_000: the explicitly sized, flex-centering content region
    simp only [Part000.buildPdfHtml, hcw, hch, e210, e297, e190, e277, strAppend_assoc]
    apply occursIn_append_right
    apply occursIn_append_right
    apply occursIn_append_right
    apply occursIn_append_right
    apply occursIn_append_right
    apply occursIn_append_right
    apply occursIn_append_right
    apply occursIn_append_right
    apply occursIn_append_right
    apply occursIn_append_right
    apply occursIn_append_right
    apply occursIn_of_start
    refine strStart_step ("190mm;\n              height: 277mm;\n              display: flex;\n              align-items: center;\n              justify-content: center;\n            \x7d") (by decide) ?_
    refine strStart_step ("mm;\n              height: 277mm;\n              display: flex;\n              align-items: center;\n              justify-content: center;\n            \x7d") (by decide) ?_
    refine strStart_step ("277mm;\n              display: flex;\n              align-items: center;\n              justify-content: center;\n            \x7d") (by decide) ?_
    refine strStart_step ("mm;\n              display: flex;\n              align-items: center;\n              justify-content: center;\n            \x7d") (by decide) ?_
    exact strStart_extend _ (by decide)
  · -- part_000: the contain-fit image rule of the content region
    simp only [Part000.buildPdfHtml, hcw, hch, e210, e297, e190, e277, strAppend_assoc]
    apply occursIn_append_right
    apply occursIn_append_right
    apply occursIn_append_right
    apply occursIn_append_right
    apply occursIn_append_right
    apply occursIn_append_right
    apply occursIn_append_right
    apply occursIn_append_right
    apply occursIn_append_right
    apply occursIn_append_right
    apply occursIn_append_right
    apply occursIn_append_right
    apply occursIn_append_right
    apply occursIn_append_right
    apply occursIn_append_right
    apply occursIn_append_right
    apply occursIn_of_start
    exact strStart_extend _ (by decide)

end ImgPdf
